import Mathlib

/-!
Verification development for the Unified AI Agent API (`main.py`):
a FastAPI wrapper exposing `POST /api/agents`, which validates a unified
`AgentConfig`, maps it to either Vapi's or Retell's payload format and
dispatches one outbound HTTP call, translating the downstream response.

JSON values are embedded as an inductive `Json`; Python dicts become
association lists with first-match lookup and in-place-update insertion,
matching Python dict semantics for duplicate-free key lists.
-/

namespace AgentApi

/-- JSON values as parsed by Python (`response.json()`, request bodies). -/
inductive Json where
  | null : Json
  | bool : Bool → Json
  | num : Int → Json
  | str : String → Json
  | arr : List Json → Json
  | obj : List (String × Json) → Json

/-- Python dict lookup `d[k]` / `d.get(k)`: first matching key. -/
def dget (d : List (String × Json)) (k : String) : Option Json :=
  match d with
  | [] => none
  | (k0, v0) :: rest => if k0 = k then some v0 else dget rest k

/-- Python dict assignment `d[k] = v`: replace in place if the key exists,
append otherwise. -/
def dset (d : List (String × Json)) (k : String) (v : Json) : List (String × Json) :=
  match d with
  | [] => [(k, v)]
  | (k0, v0) :: rest => if k0 = k then (k0, v) :: rest else (k0, v0) :: dset rest k v

/-- Python `s or d` for an optional string value: `None` and `""` are falsy. -/
def pyOrStr (v : Option String) (d : String) : String :=
  match v with
  | some s => if s = "" then d else s
  | none => d

/-- Python `m or {}` for an optional dict value (`{}` is already `{}`). -/
def pyOrDict (v : Option (List (String × Json))) : List (String × Json) :=
  match v with
  | some m => m
  | none => []

/-- `class AgentProvider(str, Enum)`: the two supported agent providers. -/
inductive AgentProvider where
  | vapi : AgentProvider
  | retell : AgentProvider
deriving DecidableEq

/-- `class VoiceProvider(str, Enum)`: the enumerated voice vendors. -/
inductive VoiceProvider where
  | eleven_labs : VoiceProvider
  | deepgram : VoiceProvider
  | play_ht : VoiceProvider
  | open_ai : VoiceProvider
  | retell : VoiceProvider
  | aws_polly : VoiceProvider
  | google : VoiceProvider
deriving DecidableEq

/-- `class Voice(BaseModel)`. -/
structure Voice where
  provider : VoiceProvider
  voice_id : String
  settings : Option (List (String × Json))

/-- `class AgentConfig(BaseModel)`. -/
structure AgentConfig where
  name : String
  description : Option String
  llm_model : Option String
  system_prompt : Option String
  voice : Option Voice
  webhook_url : Option String
  metadata : Option (List (String × Json))
  provider : AgentProvider
  provider_specific : Option (List (String × Json))

/-- The `mapping` dict literal of `map_voice_provider_to_vapi`. -/
def vapi_voice_mapping : List (VoiceProvider × String) :=
  [(VoiceProvider.eleven_labs, "eleven_labs"),
   (VoiceProvider.deepgram, "deepgram"),
   (VoiceProvider.play_ht, "play_ht"),
   (VoiceProvider.open_ai, "open_ai"),
   (VoiceProvider.aws_polly, "aws_polly"),
   (VoiceProvider.google, "google"),
   (VoiceProvider.retell, "retell")]

/-- The `mapping` dict literal of `map_voice_provider_to_retell`. -/
def retell_voice_mapping : List (VoiceProvider × String) :=
  [(VoiceProvider.eleven_labs, "elevenlabs"),
   (VoiceProvider.deepgram, "deepgram"),
   (VoiceProvider.play_ht, "playht"),
   (VoiceProvider.open_ai, "openai"),
   (VoiceProvider.aws_polly, "polly"),
   (VoiceProvider.google, "google"),
   (VoiceProvider.retell, "retell")]

/-- Enum-keyed dict lookup `mapping.get(provider, default)` without the default. -/
def lookupVP (m : List (VoiceProvider × String)) (p : VoiceProvider) : Option String :=
  (m.find? (fun e => e.1 == p)).map Prod.snd

/-- The default of `map_voice_provider_to_vapi`'s `mapping.get`. -/
def vapi_voice_default : String := "eleven_labs"

/-- The default of `map_voice_provider_to_retell`'s `mapping.get`. -/
def retell_voice_default : String := "elevenlabs"

/-- `map_voice_provider_to_vapi` (`main.py` lines 86-97). -/
def map_voice_provider_to_vapi (p : VoiceProvider) : String :=
  (lookupVP vapi_voice_mapping p).getD vapi_voice_default

/-- `map_voice_provider_to_retell` (`main.py` lines 99-110). -/
def map_voice_provider_to_retell (p : VoiceProvider) : String :=
  (lookupVP retell_voice_mapping p).getD retell_voice_default

/-- The initial `payload` dict literal of `create_vapi_agent` (lines 137-142). -/
def vapi_base_payload (config : AgentConfig) : List (String × Json) :=
  [("name", Json.str config.name),
   ("model", Json.str (pyOrStr config.llm_model "gpt-3.5-turbo-0125")),
   ("system_prompt", Json.str (pyOrStr config.system_prompt "")),
   ("metadata", Json.obj (pyOrDict config.metadata))]

/-- The initial `payload` dict literal of `create_retell_agent` (lines 199-207). -/
def retell_base_payload (config : AgentConfig) : List (String × Json) :=
  [("name", Json.str config.name),
   ("llm", Json.obj [("provider", Json.str "openai"),
                     ("model", Json.str (pyOrStr config.llm_model "gpt-3.5-turbo"))]),
   ("system_prompt", Json.str (pyOrStr config.system_prompt "")),
   ("metadata", Json.obj (pyOrDict config.metadata))]

/-- The `payload["voice"]` dict built by `create_vapi_agent` (lines
147-151): `{"provider": ...}` plus `settings` when truthy. -/
def vapi_voice_obj (v : Voice) : List (String × Json) :=
  let voiceObj := [("provider", Json.str (map_voice_provider_to_vapi v.provider))]
  match v.settings with
  | some s => if s.isEmpty then voiceObj else dset voiceObj "settings" (Json.obj s)
  | none => voiceObj

/-- The `payload["voice"]` dict built by `create_retell_agent` (lines
211-216): `{"provider": ..., "voice_id": ...}` plus `settings` when
truthy. -/
def retell_voice_obj (v : Voice) : List (String × Json) :=
  let voiceObj := [("provider", Json.str (map_voice_provider_to_retell v.provider)),
                   ("voice_id", Json.str v.voice_id)]
  match v.settings with
  | some s => if s.isEmpty then voiceObj else dset voiceObj "settings" (Json.obj s)
  | none => voiceObj

/-- `if config.voice: ...` block of `create_vapi_agent` (lines 145-151). -/
def add_voice_vapi (voice : Option Voice) (payload : List (String × Json)) :
    List (String × Json) :=
  match voice with
  | none => payload
  | some v =>
    dset (dset payload "voice_id" (Json.str v.voice_id)) "voice"
      (Json.obj (vapi_voice_obj v))

/-- `if config.voice: ...` block of `create_retell_agent` (lines 210-216). -/
def add_voice_retell (voice : Option Voice) (payload : List (String × Json)) :
    List (String × Json) :=
  match voice with
  | none => payload
  | some v => dset payload "voice" (Json.obj (retell_voice_obj v))

/-- `if config.webhook_url: payload["webhook_url"] = config.webhook_url`. -/
def add_webhook (webhook_url : Option String) (payload : List (String × Json)) :
    List (String × Json) :=
  match webhook_url with
  | some u => if u = "" then payload else dset payload "webhook_url" (Json.str u)
  | none => payload

/-- `if config.description: payload["description"] = config.description`. -/
def add_description (description : Option String) (payload : List (String × Json)) :
    List (String × Json) :=
  match description with
  | some d => if d = "" then payload else dset payload "description" (Json.str d)
  | none => payload

/-- `if config.provider_specific: for key, value in ...: payload[key] = value`. -/
def apply_provider_specific (ps : Option (List (String × Json)))
    (payload : List (String × Json)) : List (String × Json) :=
  match ps with
  | some l => if l.isEmpty then payload
              else l.foldl (fun acc kv => dset acc kv.1 kv.2) payload
  | none => payload

/-- The payload built by the mapping section of `create_vapi_agent`
(lines 137-159: base dict, voice, webhook, description), before the
`provider_specific` merge. -/
def create_vapi_payload_pre (config : AgentConfig) : List (String × Json) :=
  add_description config.description
    (add_webhook config.webhook_url
      (add_voice_vapi config.voice (vapi_base_payload config)))

/-- The full outgoing Vapi payload (lines 137-164). -/
def create_vapi_payload (config : AgentConfig) : List (String × Json) :=
  apply_provider_specific config.provider_specific (create_vapi_payload_pre config)

/-- The payload built by the mapping section of `create_retell_agent`
(lines 199-224), before the `provider_specific` merge. -/
def create_retell_payload_pre (config : AgentConfig) : List (String × Json) :=
  add_description config.description
    (add_webhook config.webhook_url
      (add_voice_retell config.voice (retell_base_payload config)))

/-- The full outgoing Retell payload (lines 199-229). -/
def create_retell_payload (config : AgentConfig) : List (String × Json) :=
  apply_provider_specific config.provider_specific (create_retell_payload_pre config)

mutual

/-- Python `repr` of a value parsed from JSON, as used by `str` on
non-string values inside an f-string. -/
def pyRepr : Json → String
  | Json.null => "None"
  | Json.bool b => if b then "True" else "False"
  | Json.num n => toString n
  | Json.str s => "'" ++ s ++ "'"
  | Json.arr es => "[" ++ pyReprList es ++ "]"
  | Json.obj fs => "\x7b" ++ pyReprFields fs ++ "\x7d"

/-- Comma-separated reprs of list elements. -/
def pyReprList : List Json → String
  | [] => ""
  | [e] => pyRepr e
  | e :: rest => pyRepr e ++ ", " ++ pyReprList rest

/-- Comma-separated reprs of dict entries. -/
def pyReprFields : List (String × Json) → String
  | [] => ""
  | [(k, v)] => "'" ++ k ++ "': " ++ pyRepr v
  | (k, v) :: rest => "'" ++ k ++ "': " ++ pyRepr v ++ ", " ++ pyReprFields rest

end

/-- Python `str` of a value parsed from JSON (f-string interpolation). -/
def pyStr : Json → String
  | Json.str s => s
  | v => pyRepr v

/-- The `result` returned by `create_vapi_agent` on a 2xx downstream
response whose JSON body is `downstream`: `result["provider"] = "vapi"`
(lines 170-175). -/
def vapi_success_result (downstream : List (String × Json)) : List (String × Json) :=
  dset downstream "provider" (Json.str "vapi")

/-- The `result` returned by `create_retell_agent` on a 2xx downstream
response (lines 235-240). -/
def retell_success_result (downstream : List (String × Json)) : List (String × Json) :=
  dset downstream "provider" (Json.str "retell")

/-- The `error_detail` computed in the `except httpx.HTTPError` branch:
the raw response `text`, replaced by `error_json.get("message", error_detail)`
when the body parses as a JSON object (`body = some j`); a missing
`message` key keeps the raw text (lines 178-183 / 243-248). -/
def extract_error_detail (text : String) (body : Option (List (String × Json))) : String :=
  match body with
  | none => text
  | some j =>
    match dget j "message" with
    | some v => pyStr v
    | none => text

/-- The `HTTPException` raised by `create_vapi_agent` when the downstream
call completed with a non-2xx status and a response is attached
(line 184): status and detail. -/
def vapi_error_response (status : Nat) (text : String)
    (body : Option (List (String × Json))) : Nat × String :=
  (status, "Vapi API error: " ++ extract_error_detail text body)

/-- The `HTTPException` raised by `create_retell_agent` on a non-2xx
downstream response (line 249). -/
def retell_error_response (status : Nat) (text : String)
    (body : Option (List (String × Json))) : Nat × String :=
  (status, "Retell API error: " ++ extract_error_detail text body)

/-- Python truthiness of an optional environment string: `None` and the
empty string are falsy. -/
def envTruthy (v : Option String) : Bool :=
  match v with
  | some s => !(s == "")
  | none => false

/-- `validate_api_keys` (lines 74-84): dependency returning both keys, or
an `HTTPException (500, detail)` when either is unset/empty. -/
def validate_api_keys (vapi_key retell_key : Option String) :
    Except (Nat × String) (String × String) :=
  if !envTruthy vapi_key then
    Except.error (500, "VAPI_API_KEY not configured in environment")
  else if !envTruthy retell_key then
    Except.error (500, "RETELL_API_KEY not configured in environment")
  else
    Except.ok (vapi_key.getD "", retell_key.getD "")

/-- Where a request ends up at the boundary of this service: rejected with
an HTTP error response before any outbound call, or dispatched as one
outbound POST with a URL, bearer credential and JSON payload. -/
inductive Dispatch where
  | reject : Nat → String → Dispatch
  | call : String → String → List (String × Json) → Dispatch

/-- The dispatch section of `create_agent` (lines 119-124), given the
validated `api_keys` pair `(vapi_key, retell_key)`. -/
def create_agent (config : AgentConfig) (keys : String × String) : Dispatch :=
  if config.provider = AgentProvider.vapi then
    Dispatch.call "https://api.vapi.ai/assistants" keys.1 (create_vapi_payload config)
  else if config.provider = AgentProvider.retell then
    Dispatch.call "https://api.retellai.com/agents" keys.2 (create_retell_payload config)
  else
    Dispatch.reject 400 "Invalid provider specified"

/-- Modelled from the spec: framework validation of `provider` against the
`AgentProvider` enum declared in `main.py` (enum coercion by member value). -/
def parseAgentProvider : Json → Option AgentProvider
  | Json.str "vapi" => some AgentProvider.vapi
  | Json.str "retell" => some AgentProvider.retell
  | _ => none

/-- Modelled from the spec: framework validation of `voice.provider`
against the `VoiceProvider` enum declared in `main.py`. -/
def parseVoiceProvider : Json → Option VoiceProvider
  | Json.str "eleven_labs" => some VoiceProvider.eleven_labs
  | Json.str "deepgram" => some VoiceProvider.deepgram
  | Json.str "play_ht" => some VoiceProvider.play_ht
  | Json.str "open_ai" => some VoiceProvider.open_ai
  | Json.str "retell" => some VoiceProvider.retell
  | Json.str "aws_polly" => some VoiceProvider.aws_polly
  | Json.str "google" => some VoiceProvider.google
  | _ => none

/-- Modelled from the spec: validation of an `Optional[str]` field —
absent or `null` gives `None`, a string is accepted, anything else is a
validation error. -/
def parseOptStr (body : List (String × Json)) (k : String) : Except Unit (Option String) :=
  match dget body k with
  | none => Except.ok none
  | some Json.null => Except.ok none
  | some (Json.str s) => Except.ok (some s)
  | some _ => Except.error ()

/-- Modelled from the spec: validation of an `Optional[Dict[str, Any]]`
field. -/
def parseOptDict (body : List (String × Json)) (k : String) :
    Except Unit (Option (List (String × Json))) :=
  match dget body k with
  | none => Except.ok none
  | some Json.null => Except.ok none
  | some (Json.obj fs) => Except.ok (some fs)
  | some _ => Except.error ()

/-- Modelled from the spec: validation of the required `name: str` field. -/
def parseName (body : List (String × Json)) : Except Unit String :=
  match dget body "name" with
  | some (Json.str s) => Except.ok s
  | _ => Except.error ()

/-- Modelled from the spec: validation of the required
`provider: AgentProvider` field. -/
def parseProvider (body : List (String × Json)) : Except Unit AgentProvider :=
  match dget body "provider" with
  | some j =>
    match parseAgentProvider j with
    | some p => Except.ok p
    | none => Except.error ()
  | none => Except.error ()

/-- Modelled from the spec: validation of a `Voice` block (required
enumerated `provider`, required string `voice_id`, optional `settings`). -/
def parseVoice (j : Json) : Except Unit Voice :=
  match j with
  | Json.obj fs =>
    match dget fs "provider" with
    | some pj =>
      match parseVoiceProvider pj with
      | some p =>
        match dget fs "voice_id" with
        | some (Json.str vid) =>
          match parseOptDict fs "settings" with
          | Except.ok s => Except.ok { provider := p, voice_id := vid, settings := s }
          | Except.error e => Except.error e
        | _ => Except.error ()
      | none => Except.error ()
    | none => Except.error ()
  | _ => Except.error ()

/-- Modelled from the spec: validation of the `voice: Optional[Voice]`
field. -/
def parseVoiceField (body : List (String × Json)) : Except Unit (Option Voice) :=
  match dget body "voice" with
  | none => Except.ok none
  | some Json.null => Except.ok none
  | some j =>
    match parseVoice j with
    | Except.ok v => Except.ok (some v)
    | Except.error e => Except.error e

/-- Modelled from the spec: framework validation of a raw JSON request
body against the `AgentConfig` schema declared in `main.py`; an error is
reported to the client as a 422 validation failure. -/
def parseAgentConfig (body : List (String × Json)) : Except Unit AgentConfig :=
  match parseName body with
  | Except.error e => Except.error e
  | Except.ok name =>
    match parseProvider body with
    | Except.error e => Except.error e
    | Except.ok provider =>
      match parseOptStr body "description" with
      | Except.error e => Except.error e
      | Except.ok description =>
        match parseOptStr body "llm_model" with
        | Except.error e => Except.error e
        | Except.ok llm_model =>
          match parseOptStr body "system_prompt" with
          | Except.error e => Except.error e
          | Except.ok system_prompt =>
            match parseVoiceField body with
            | Except.error e => Except.error e
            | Except.ok voice =>
              match parseOptStr body "webhook_url" with
              | Except.error e => Except.error e
              | Except.ok webhook_url =>
                match parseOptDict body "metadata" with
                | Except.error e => Except.error e
                | Except.ok metadata =>
                  match parseOptDict body "provider_specific" with
                  | Except.error e => Except.error e
                  | Except.ok provider_specific =>
                    Except.ok { name := name, description := description,
                                llm_model := llm_model, system_prompt := system_prompt,
                                voice := voice, webhook_url := webhook_url,
                                metadata := metadata, provider := provider,
                                provider_specific := provider_specific }

/-- Modelled from the spec: the request pipeline of `POST /api/agents`.
The framework resolves the `Depends(validate_api_keys)` dependency before
body validation (the spec: absence of either credential "causes every
request to fail at validation time ... regardless of which provider the
request targets"), then validates the body against `AgentConfig` (422 on
failure), then runs `create_agent`. -/
def handle_request (vapi_key retell_key : Option String)
    (body : List (String × Json)) : Dispatch :=
  match validate_api_keys vapi_key retell_key with
  | Except.error e => Dispatch.reject e.1 e.2
  | Except.ok keys =>
    match parseAgentConfig body with
    | Except.error _ => Dispatch.reject 422 "validation error"
    | Except.ok config => create_agent config keys

/-- Status code of a boundary response, `none` for a dispatched call. -/
def dispatchStatus : Dispatch → Option Nat
  | Dispatch.reject s _ => some s
  | Dispatch.call _ _ _ => none

/-- A fully-populated valid configuration (the test suite's
`test_agent_config` with provider `vapi`). -/
def sample_vapi_config : AgentConfig :=
  { name := "Test Agent", description := some "A test agent",
    llm_model := some "gpt-4",
    system_prompt := some "You are a test agent.",
    voice := some { provider := VoiceProvider.eleven_labs,
                    voice_id := "test-voice-id",
                    settings := some [("stability", Json.num 1)] },
    webhook_url := some "https://example.com/webhook",
    metadata := some [("test", Json.str "value")],
    provider := AgentProvider.vapi, provider_specific := none }

/-- The same configuration targeting `retell`. -/
def sample_retell_config : AgentConfig :=
  { sample_vapi_config with provider := AgentProvider.retell }

/-- A valid configuration with a present-but-empty `llm_model` and
present-but-empty `voice.settings`, targeting `vapi`. -/
def edge_vapi_config : AgentConfig :=
  { name := "A", description := none, llm_model := some "",
    system_prompt := none,
    voice := some { provider := VoiceProvider.eleven_labs, voice_id := "X",
                    settings := some [] },
    webhook_url := none, metadata := none,
    provider := AgentProvider.vapi, provider_specific := none }

/-- The analogous edge configuration targeting `retell`. -/
def edge_retell_config : AgentConfig :=
  { name := "B", description := none, llm_model := some "",
    system_prompt := none,
    voice := some { provider := VoiceProvider.eleven_labs, voice_id := "Y",
                    settings := some [] },
    webhook_url := none, metadata := none,
    provider := AgentProvider.retell, provider_specific := none }

/-! ### Dictionary lemmas -/

theorem dget_dset_self (d : List (String × Json)) (k : String) (v : Json) :
    dget (dset d k v) k = some v := by
  induction d with
  | nil => simp [dget, dset]
  | cons hd tl ih =>
    obtain ⟨k0, v0⟩ := hd
    by_cases h : k0 = k
    · simp [dset, dget, h]
    · simp [dset, dget, h, ih]

theorem dget_dset_ne (d : List (String × Json)) (k k' : String) (v : Json)
    (h : k' ≠ k) : dget (dset d k v) k' = dget d k' := by
  have hne : ¬k = k' := fun hh => h hh.symm
  induction d with
  | nil => simp [dget, dset, hne]
  | cons hd tl ih =>
    obtain ⟨k0, v0⟩ := hd
    by_cases h0 : k0 = k
    · subst h0
      simp [dset, dget, hne]
    · simp only [dset, if_neg h0, dget]
      rw [ih]

theorem dget_foldl_dset_of_not_mem (ps : List (String × Json))
    (base : List (String × Json)) (k : String) (h : k ∉ ps.map Prod.fst) :
    dget (ps.foldl (fun acc kv => dset acc kv.1 kv.2) base) k = dget base k := by
  induction ps generalizing base with
  | nil => rfl
  | cons hd tl ih =>
    simp only [List.map_cons, List.mem_cons, not_or] at h
    simp only [List.foldl_cons]
    rw [ih (dset base hd.1 hd.2) h.2, dget_dset_ne]
    exact h.1

theorem dget_foldl_dset_of_mem (ps : List (String × Json))
    (base : List (String × Json)) (k : String) (v : Json)
    (hmem : (k, v) ∈ ps) (hnd : (ps.map Prod.fst).Nodup) :
    dget (ps.foldl (fun acc kv => dset acc kv.1 kv.2) base) k = some v := by
  induction ps generalizing base with
  | nil => cases hmem
  | cons hd tl ih =>
    simp only [List.map_cons, List.nodup_cons] at hnd
    rcases List.mem_cons.mp hmem with heq | htl
    · subst heq
      simp only [List.foldl_cons]
      exact calc
        dget (List.foldl (fun acc kv => dset acc kv.1 kv.2) (dset base k v) tl) k
            = dget (dset base k v) k :=
          dget_foldl_dset_of_not_mem tl (dset base k v) k hnd.1
        _ = some v := dget_dset_self base k v
    · exact ih (dset base hd.1 hd.2) htl hnd.2

/-! ### Claims about the voice-provider lookup tables -/

/-- C6: both voice-provider remapping functions are total over the
enumerated `VoiceProvider` set — every enum member has a table entry and
the function returns exactly that entry — and each function's defensive
default is the single value `"eleven_labs"` (Vapi) resp. `"elevenlabs"`
(Retell); the default clause is exactly `Option.getD` applied to the table
lookup, i.e. it is returned precisely when the lookup yields no entry. -/
theorem C6_voice_mapping_total :
    (∀ p : VoiceProvider, ∃ s, lookupVP vapi_voice_mapping p = some s ∧
        map_voice_provider_to_vapi p = s) ∧
    (∀ p : VoiceProvider, ∃ s, lookupVP retell_voice_mapping p = some s ∧
        map_voice_provider_to_retell p = s) ∧
    vapi_voice_default = "eleven_labs" ∧ retell_voice_default = "elevenlabs" ∧
    (∀ p : VoiceProvider, map_voice_provider_to_vapi p =
        (lookupVP vapi_voice_mapping p).getD vapi_voice_default) ∧
    (∀ p : VoiceProvider, map_voice_provider_to_retell p =
        (lookupVP retell_voice_mapping p).getD retell_voice_default) := by
  refine ⟨fun p => ?_, fun p => ?_, rfl, rfl, fun p => rfl, fun p => rfl⟩ <;>
    cases p <;> exact ⟨_, rfl, rfl⟩

/-! ### Claims about the dispatch logic -/

/-- C9: every validated `AgentConfig` carries a provider that is either
the Vapi or the Retell enum member, so `create_agent` always dispatches to
exactly one of the two provider calls and the final `else` branch raising
400 "Invalid provider specified" is unreachable. -/
theorem C9_invalid_provider_unreachable :
    ∀ (config : AgentConfig) (keys : String × String),
      (config.provider = AgentProvider.vapi ∨ config.provider = AgentProvider.retell) ∧
      (create_agent config keys =
          Dispatch.call "https://api.vapi.ai/assistants" keys.1 (create_vapi_payload config) ∨
        create_agent config keys =
          Dispatch.call "https://api.retellai.com/agents" keys.2 (create_retell_payload config)) ∧
      ∀ s d, create_agent config keys ≠ Dispatch.reject s d := by
  intro config keys
  cases hp : config.provider
  · exact ⟨Or.inl rfl, Or.inl (by simp [create_agent, hp]),
      by intro s d h; simp [create_agent, hp] at h⟩
  · exact ⟨Or.inr rfl, Or.inr (by simp [create_agent, hp]),
      by intro s d h; simp [create_agent, hp] at h⟩

/-- C5: every `provider_specific` entry lands in the final outgoing
payload with exactly its given value, for both providers — even when the
key collides with a mapper-generated key (last-write-wins). -/
theorem C5_provider_specific_last_write_wins
    (config : AgentConfig) (ps : List (String × Json)) (k : String) (v : Json)
    (hps : config.provider_specific = some ps)
    (hnd : (ps.map Prod.fst).Nodup) (hmem : (k, v) ∈ ps) :
    dget (create_vapi_payload config) k = some v ∧
    dget (create_retell_payload config) k = some v := by
  have hne : ps.isEmpty = false := by
    cases ps
    · cases hmem
    · rfl
  constructor
  · rw [create_vapi_payload, hps]
    simp only [apply_provider_specific, hne, Bool.false_eq_true, if_false]
    exact dget_foldl_dset_of_mem ps _ k v hmem hnd
  · rw [create_retell_payload, hps]
    simp only [apply_provider_specific, hne, Bool.false_eq_true, if_false]
    exact dget_foldl_dset_of_mem ps _ k v hmem hnd

/-- Witness for C5 at a concrete config whose `provider_specific` collides
with the mapper-generated `name` key. -/
theorem C5_witness :
    ((([("name", Json.str "override")] : List (String × Json)).map Prod.fst).Nodup ∧
      ("name", Json.str "override") ∈ ([("name", Json.str "override")] : List (String × Json))) ∧
    (dget (create_vapi_payload
        { name := "Agent", description := none, llm_model := none,
          system_prompt := none, voice := none, webhook_url := none,
          metadata := none, provider := AgentProvider.vapi,
          provider_specific := some [("name", Json.str "override")] }) "name" =
        some (Json.str "override") ∧
      dget (create_retell_payload
        { name := "Agent", description := none, llm_model := none,
          system_prompt := none, voice := none, webhook_url := none,
          metadata := none, provider := AgentProvider.vapi,
          provider_specific := some [("name", Json.str "override")] }) "name" =
        some (Json.str "override")) :=
  ⟨⟨List.nodup_singleton _, List.mem_singleton.mpr rfl⟩,
    C5_provider_specific_last_write_wins _ _ _ _ rfl
      (List.nodup_singleton _) (List.mem_singleton.mpr rfl)⟩

/-! ### Claims about the success and error response translation -/

/-- C1 counterexample: when the downstream 2xx JSON body itself contains a
`provider` field, the code overwrites it with the request's provider, so
not every original downstream field is preserved unchanged. -/
theorem C1_counterexample :
    vapi_success_result [("provider", Json.str "upstream")] =
      [("provider", Json.str "vapi")] ∧
    dget (vapi_success_result [("provider", Json.str "upstream")]) "provider" ≠
      dget [("provider", Json.str "upstream")] "provider" := by
  refine ⟨rfl, fun h => ?_⟩
  have h1 : dget (vapi_success_result [("provider", Json.str "upstream")]) "provider" =
      some (Json.str "vapi") := rfl
  have h2 : dget [("provider", Json.str "upstream")] "provider" =
      some (Json.str "upstream") := rfl
  rw [h1, h2] at h
  injection h with h3
  injection h3 with h4
  exact absurd h4 (by decide)

/-- C1 (amended): on a successful downstream call the returned body is the
downstream JSON with the `provider` key set to the request's provider
value; every downstream field whose key differs from `provider` is
preserved unchanged (a downstream `provider` field itself is overwritten,
not preserved). -/
theorem C1_round_trip_amended (downstream : List (String × Json)) (k : String)
    (hk : k ≠ "provider") :
    dget (vapi_success_result downstream) "provider" = some (Json.str "vapi") ∧
    dget (retell_success_result downstream) "provider" = some (Json.str "retell") ∧
    dget (vapi_success_result downstream) k = dget downstream k ∧
    dget (retell_success_result downstream) k = dget downstream k :=
  ⟨dget_dset_self _ _ _, dget_dset_self _ _ _,
    dget_dset_ne _ _ _ _ hk, dget_dset_ne _ _ _ _ hk⟩

/-- Witness for the amended C1 at the spec's own scenario: downstream body
`{"id": "abc"}`. -/
theorem C1_round_trip_witness :
    ("id" : String) ≠ "provider" ∧
    (dget (vapi_success_result [("id", Json.str "abc")]) "provider" =
        some (Json.str "vapi") ∧
      dget (retell_success_result [("id", Json.str "abc")]) "provider" =
        some (Json.str "retell") ∧
      dget (vapi_success_result [("id", Json.str "abc")]) "id" =
        dget [("id", Json.str "abc")] "id" ∧
      dget (retell_success_result [("id", Json.str "abc")]) "id" =
        dget [("id", Json.str "abc")] "id") :=
  ⟨by decide, C1_round_trip_amended [("id", Json.str "abc")] "id" (by decide)⟩

/-- C2 counterexample: at the spec's own scenario (downstream status 400,
body `{"message": "bad voice id"}`) the wrapper raises an HTTPException
whose status is the downstream 400 — the original status code is passed
through, not collapsed to a single server-error status. -/
theorem C2_counterexample :
    vapi_error_response 400 "Bad request" (some [("message", Json.str "bad voice id")]) =
      (400, "Vapi API error: bad voice id") ∧ (400 : Nat) ≠ 500 :=
  ⟨rfl, by decide⟩

/-- C2 (amended): on a non-2xx downstream response carrying a body, the
wrapper passes the downstream status code through unchanged, and the
`detail` is the provider-tagged message extracted from the error body's
`message` field, falling back to the raw response text when the body is
not JSON-shaped. -/
theorem C2_error_passthrough_amended (status : Nat) (text : String)
    (body : List (String × Json)) (m : String)
    (hm : dget body "message" = some (Json.str m)) :
    ((vapi_error_response status text (some body)).1 = status ∧
      (vapi_error_response status text (some body)).2 = "Vapi API error: " ++ m ∧
      (vapi_error_response status text none).2 = "Vapi API error: " ++ text) ∧
    ((retell_error_response status text (some body)).1 = status ∧
      (retell_error_response status text (some body)).2 = "Retell API error: " ++ m ∧
      (retell_error_response status text none).2 = "Retell API error: " ++ text) := by
  constructor <;> refine ⟨rfl, ?_, rfl⟩ <;>
    simp [vapi_error_response, retell_error_response, extract_error_detail, hm, pyStr]

/-- Witness for the amended C2 at the spec's scenario. -/
theorem C2_error_passthrough_witness :
    dget [("message", Json.str "bad voice id")] "message" =
      some (Json.str "bad voice id") ∧
    (vapi_error_response 400 "Bad request"
        (some [("message", Json.str "bad voice id")])).1 = 400 ∧
    (vapi_error_response 400 "Bad request"
        (some [("message", Json.str "bad voice id")])).2 =
      "Vapi API error: " ++ "bad voice id" :=
  ⟨rfl,
    (C2_error_passthrough_amended 400 "Bad request"
      [("message", Json.str "bad voice id")] "bad voice id" rfl).1.1,
    (C2_error_passthrough_amended 400 "Bad request"
      [("message", Json.str "bad voice id")] "bad voice id" rfl).1.2.1⟩

/-! ### Truthiness gating of the optional fields -/

/-- C10: for both providers, `description`, `webhook_url`, `voice.settings`
and the `provider_specific` merge are gated on Python truthiness: a
present-but-falsy value (empty string / empty dict) produces exactly the
payload of an absent one. -/
theorem C10_falsy_optionals_omitted (config : AgentConfig) (v : Voice) :
    (create_vapi_payload { config with description := some "" } =
        create_vapi_payload { config with description := none } ∧
      create_retell_payload { config with description := some "" } =
        create_retell_payload { config with description := none }) ∧
    (create_vapi_payload { config with webhook_url := some "" } =
        create_vapi_payload { config with webhook_url := none } ∧
      create_retell_payload { config with webhook_url := some "" } =
        create_retell_payload { config with webhook_url := none }) ∧
    (create_vapi_payload { config with provider_specific := some [] } =
        create_vapi_payload { config with provider_specific := none } ∧
      create_retell_payload { config with provider_specific := some [] } =
        create_retell_payload { config with provider_specific := none }) ∧
    (create_vapi_payload { config with voice := some { v with settings := some [] } } =
        create_vapi_payload { config with voice := some { v with settings := none } } ∧
      create_retell_payload { config with voice := some { v with settings := some [] } } =
        create_retell_payload { config with voice := some { v with settings := none } }) := by
  refine ⟨⟨?_, ?_⟩, ⟨?_, ?_⟩, ⟨?_, ?_⟩, ⟨?_, ?_⟩⟩ <;>
    simp [create_vapi_payload, create_retell_payload, create_vapi_payload_pre,
      create_retell_payload_pre, add_description, add_webhook, add_voice_vapi,
      add_voice_retell, apply_provider_specific, vapi_base_payload,
      retell_base_payload, vapi_voice_obj, retell_voice_obj]

/-! ### Field-mapper lemmas -/

theorem dget_add_description_ne (d : Option String) (p : List (String × Json))
    (k : String) (h : k ≠ "description") :
    dget (add_description d p) k = dget p k := by
  cases d with
  | none => rfl
  | some s =>
    by_cases hs : s = ""
    · simp [add_description, hs]
    · simp only [add_description, if_neg hs]
      exact dget_dset_ne _ _ _ _ h

theorem dget_add_webhook_ne (w : Option String) (p : List (String × Json))
    (k : String) (h : k ≠ "webhook_url") :
    dget (add_webhook w p) k = dget p k := by
  cases w with
  | none => rfl
  | some s =>
    by_cases hs : s = ""
    · simp [add_webhook, hs]
    · simp only [add_webhook, if_neg hs]
      exact dget_dset_ne _ _ _ _ h

theorem dget_add_voice_vapi_ne (voice : Option Voice) (p : List (String × Json))
    (k : String) (h1 : k ≠ "voice_id") (h2 : k ≠ "voice") :
    dget (add_voice_vapi voice p) k = dget p k := by
  cases voice with
  | none => rfl
  | some v =>
    simp only [add_voice_vapi]
    rw [dget_dset_ne _ _ _ _ h2, dget_dset_ne _ _ _ _ h1]

theorem dget_add_voice_retell_ne (voice : Option Voice) (p : List (String × Json))
    (k : String) (h : k ≠ "voice") :
    dget (add_voice_retell voice p) k = dget p k := by
  cases voice with
  | none => rfl
  | some v =>
    simp only [add_voice_retell]
    rw [dget_dset_ne _ _ _ _ h]

theorem dget_add_voice_vapi_voice_id (v : Voice) (p : List (String × Json)) :
    dget (add_voice_vapi (some v) p) "voice_id" = some (Json.str v.voice_id) := by
  simp only [add_voice_vapi]
  rw [dget_dset_ne _ _ _ _ (by decide : ("voice_id" : String) ≠ "voice")]
  exact dget_dset_self _ _ _

theorem dget_add_voice_vapi_voice (v : Voice) (p : List (String × Json)) :
    dget (add_voice_vapi (some v) p) "voice" = some (Json.obj (vapi_voice_obj v)) := by
  simp only [add_voice_vapi]
  exact dget_dset_self _ _ _

theorem dget_add_voice_retell_voice (v : Voice) (p : List (String × Json)) :
    dget (add_voice_retell (some v) p) "voice" = some (Json.obj (retell_voice_obj v)) := by
  simp only [add_voice_retell]
  exact dget_dset_self _ _ _

theorem vapi_voice_obj_provider (v : Voice) :
    dget (vapi_voice_obj v) "provider" =
      some (Json.str (map_voice_provider_to_vapi v.provider)) := by
  cases hs : v.settings with
  | none =>
    simp only [vapi_voice_obj, hs]
    rfl
  | some s =>
    by_cases he : s.isEmpty
    · simp only [vapi_voice_obj, hs, if_pos he]
      rfl
    · simp only [vapi_voice_obj, hs, if_neg he]
      rw [dget_dset_ne _ _ _ _ (by decide : ("provider" : String) ≠ "settings")]
      rfl

theorem vapi_voice_obj_settings (v : Voice) (s : List (String × Json))
    (hs : v.settings = some s) (hne : s ≠ []) :
    dget (vapi_voice_obj v) "settings" = some (Json.obj s) := by
  have he : ¬s.isEmpty = true := by
    cases s with
    | nil => exact absurd rfl hne
    | cons a t => simp
  simp only [vapi_voice_obj, hs, if_neg he]
  exact dget_dset_self _ _ _

theorem retell_voice_obj_provider (v : Voice) :
    dget (retell_voice_obj v) "provider" =
      some (Json.str (map_voice_provider_to_retell v.provider)) := by
  cases hs : v.settings with
  | none =>
    simp only [retell_voice_obj, hs]
    rfl
  | some s =>
    by_cases he : s.isEmpty
    · simp only [retell_voice_obj, hs, if_pos he]
      rfl
    · simp only [retell_voice_obj, hs, if_neg he]
      rw [dget_dset_ne _ _ _ _ (by decide : ("provider" : String) ≠ "settings")]
      rfl

theorem retell_voice_obj_voice_id (v : Voice) :
    dget (retell_voice_obj v) "voice_id" = some (Json.str v.voice_id) := by
  cases hs : v.settings with
  | none =>
    simp only [retell_voice_obj, hs]
    rfl
  | some s =>
    by_cases he : s.isEmpty
    · simp only [retell_voice_obj, hs, if_pos he]
      rfl
    · simp only [retell_voice_obj, hs, if_neg he]
      rw [dget_dset_ne _ _ _ _ (by decide : ("voice_id" : String) ≠ "settings")]
      rfl

theorem retell_voice_obj_settings (v : Voice) (s : List (String × Json))
    (hs : v.settings = some s) (hne : s ≠ []) :
    dget (retell_voice_obj v) "settings" = some (Json.obj s) := by
  have he : ¬s.isEmpty = true := by
    cases s with
    | nil => exact absurd rfl hne
    | cons a t => simp
  simp only [retell_voice_obj, hs, if_neg he]
  exact dget_dset_self _ _ _

theorem dget_vapi_pre_base (config : AgentConfig) (k : String)
    (h1 : k ≠ "description") (h2 : k ≠ "webhook_url")
    (h3 : k ≠ "voice_id") (h4 : k ≠ "voice") :
    dget (create_vapi_payload_pre config) k = dget (vapi_base_payload config) k := by
  unfold create_vapi_payload_pre
  rw [dget_add_description_ne _ _ _ h1, dget_add_webhook_ne _ _ _ h2,
    dget_add_voice_vapi_ne _ _ _ h3 h4]

theorem dget_retell_pre_base (config : AgentConfig) (k : String)
    (h1 : k ≠ "description") (h2 : k ≠ "webhook_url") (h3 : k ≠ "voice") :
    dget (create_retell_payload_pre config) k = dget (retell_base_payload config) k := by
  unfold create_retell_payload_pre
  rw [dget_add_description_ne _ _ _ h1, dget_add_webhook_ne _ _ _ h2,
    dget_add_voice_retell_ne _ _ _ h3]

/-- C3 counterexample: `edge_vapi_config` has `llm_model = some ""`
(present, not absent) yet the mapped payload's `model` is the default, not
the empty string; its `voice.settings` is given (`some []`) yet the
emitted voice object carries no `settings` key. -/
theorem C3_counterexample :
    edge_vapi_config.llm_model = some "" ∧
    (edge_vapi_config.voice.map Voice.settings) = some (some []) ∧
    create_vapi_payload_pre edge_vapi_config =
      [("name", Json.str "A"), ("model", Json.str "gpt-3.5-turbo-0125"),
       ("system_prompt", Json.str ""), ("metadata", Json.obj []),
       ("voice_id", Json.str "X"),
       ("voice", Json.obj [("provider", Json.str "eleven_labs")])] ∧
    dget (create_vapi_payload_pre edge_vapi_config) "model" ≠
      some (Json.str "") ∧
    dget [("provider", Json.str "eleven_labs")] "settings" = none := by
  refine ⟨rfl, rfl, rfl, fun h => ?_, rfl⟩
  have h1 : dget (create_vapi_payload_pre edge_vapi_config) "model" =
      some (Json.str "gpt-3.5-turbo-0125") := rfl
  rw [h1] at h
  injection h with h2
  injection h2 with h3
  exact absurd h3 (by decide)

/-- C3 (amended): for every valid `AgentConfig` with provider `vapi`, the
mapped payload has `name = config.name`; `model` equals `config.llm_model`
when that is a non-empty string and the default `"gpt-3.5-turbo-0125"`
when it is absent or empty; `system_prompt` equals `config.system_prompt`
or the empty string; `metadata` equals `config.metadata` or the empty
mapping; and when a voice block is present, a top-level `voice_id` equal
to `voice.voice_id` and a nested `voice.provider` equal to the Vapi
lookup-table remapping, plus `voice.settings` when settings are given and
non-empty. -/
theorem C3_vapi_field_mapping (config : AgentConfig)
    (hp : config.provider = AgentProvider.vapi) :
    dget (create_vapi_payload_pre config) "name" = some (Json.str config.name) ∧
    (config.llm_model = none →
      dget (create_vapi_payload_pre config) "model" =
        some (Json.str "gpt-3.5-turbo-0125")) ∧
    (∀ s, config.llm_model = some s → s ≠ "" →
      dget (create_vapi_payload_pre config) "model" = some (Json.str s)) ∧
    (config.llm_model = some "" →
      dget (create_vapi_payload_pre config) "model" =
        some (Json.str "gpt-3.5-turbo-0125")) ∧
    (config.system_prompt = none →
      dget (create_vapi_payload_pre config) "system_prompt" = some (Json.str "")) ∧
    (∀ s, config.system_prompt = some s →
      dget (create_vapi_payload_pre config) "system_prompt" = some (Json.str s)) ∧
    (config.metadata = none →
      dget (create_vapi_payload_pre config) "metadata" = some (Json.obj [])) ∧
    (∀ m, config.metadata = some m →
      dget (create_vapi_payload_pre config) "metadata" = some (Json.obj m)) ∧
    (∀ v, config.voice = some v →
      dget (create_vapi_payload_pre config) "voice_id" = some (Json.str v.voice_id) ∧
      ∃ vo, dget (create_vapi_payload_pre config) "voice" = some (Json.obj vo) ∧
        dget vo "provider" =
          some (Json.str (map_voice_provider_to_vapi v.provider)) ∧
        ∀ s, v.settings = some s → s ≠ [] →
          dget vo "settings" = some (Json.obj s)) := by
  have hname : dget (create_vapi_payload_pre config) "name" =
      dget (vapi_base_payload config) "name" :=
    dget_vapi_pre_base config "name" (by decide) (by decide) (by decide) (by decide)
  have hmodel : dget (create_vapi_payload_pre config) "model" =
      dget (vapi_base_payload config) "model" :=
    dget_vapi_pre_base config "model" (by decide) (by decide) (by decide) (by decide)
  have hsys : dget (create_vapi_payload_pre config) "system_prompt" =
      dget (vapi_base_payload config) "system_prompt" :=
    dget_vapi_pre_base config "system_prompt" (by decide) (by decide) (by decide)
      (by decide)
  have hmeta : dget (create_vapi_payload_pre config) "metadata" =
      dget (vapi_base_payload config) "metadata" :=
    dget_vapi_pre_base config "metadata" (by decide) (by decide) (by decide)
      (by decide)
  refine ⟨?_, ?_, ?_, ?_, ?_, ?_, ?_, ?_, ?_⟩
  · rw [hname]; rfl
  · intro hl
    rw [hmodel]
    show some (Json.str (pyOrStr config.llm_model "gpt-3.5-turbo-0125")) = _
    rw [hl]
    rfl
  · intro s hl hs
    rw [hmodel]
    show some (Json.str (pyOrStr config.llm_model "gpt-3.5-turbo-0125")) = _
    rw [hl]
    simp [pyOrStr, hs]
  · intro hl
    rw [hmodel]
    show some (Json.str (pyOrStr config.llm_model "gpt-3.5-turbo-0125")) = _
    rw [hl]
    rfl
  · intro hl
    rw [hsys]
    show some (Json.str (pyOrStr config.system_prompt "")) = _
    rw [hl]
    rfl
  · intro s hl
    rw [hsys]
    show some (Json.str (pyOrStr config.system_prompt "")) = _
    rw [hl]
    by_cases hs : s = ""
    · simp [pyOrStr, hs]
    · simp [pyOrStr, hs]
  · intro hm
    rw [hmeta]
    show some (Json.obj (pyOrDict config.metadata)) = _
    rw [hm]
    rfl
  · intro m hm
    rw [hmeta]
    show some (Json.obj (pyOrDict config.metadata)) = _
    rw [hm]
    rfl
  · intro v hv
    constructor
    · unfold create_vapi_payload_pre
      rw [dget_add_description_ne _ _ _ (by decide),
        dget_add_webhook_ne _ _ _ (by decide), hv]
      exact dget_add_voice_vapi_voice_id v _
    · refine ⟨vapi_voice_obj v, ?_, vapi_voice_obj_provider v,
        fun s hs hne => vapi_voice_obj_settings v s hs hne⟩
      unfold create_vapi_payload_pre
      rw [dget_add_description_ne _ _ _ (by decide),
        dget_add_webhook_ne _ _ _ (by decide), hv]
      exact dget_add_voice_vapi_voice v _

/-- Witness for the amended C3 at the test suite's configuration. -/
theorem C3_witness :
    sample_vapi_config.provider = AgentProvider.vapi ∧
    sample_vapi_config.llm_model = some "gpt-4" ∧
    dget (create_vapi_payload_pre sample_vapi_config) "name" =
      some (Json.str "Test Agent") ∧
    dget (create_vapi_payload_pre sample_vapi_config) "model" =
      some (Json.str "gpt-4") :=
  ⟨rfl, rfl, (C3_vapi_field_mapping sample_vapi_config rfl).1,
    (C3_vapi_field_mapping sample_vapi_config rfl).2.2.1 "gpt-4" rfl (by decide)⟩

/-- C4 counterexample: `edge_retell_config` has `llm_model = some ""`
(present, not absent) yet the mapped payload's `llm.model` is the default;
its `voice.settings` is given (`some []`) yet the emitted voice object
carries no `settings` key. -/
theorem C4_counterexample :
    edge_retell_config.llm_model = some "" ∧
    (edge_retell_config.voice.map Voice.settings) = some (some []) ∧
    create_retell_payload_pre edge_retell_config =
      [("name", Json.str "B"),
       ("llm", Json.obj [("provider", Json.str "openai"),
                         ("model", Json.str "gpt-3.5-turbo")]),
       ("system_prompt", Json.str ""), ("metadata", Json.obj []),
       ("voice", Json.obj [("provider", Json.str "elevenlabs"),
                           ("voice_id", Json.str "Y")])] ∧
    dget [("provider", Json.str "openai"), ("model", Json.str "gpt-3.5-turbo")]
        "model" ≠ some (Json.str "") ∧
    dget [("provider", Json.str "elevenlabs"), ("voice_id", Json.str "Y")]
        "settings" = none := by
  refine ⟨rfl, rfl, rfl, fun h => ?_, rfl⟩
  have h1 : dget [("provider", Json.str "openai"),
      ("model", Json.str "gpt-3.5-turbo")] "model" =
      some (Json.str "gpt-3.5-turbo") := rfl
  rw [h1] at h
  injection h with h2
  injection h2 with h3
  exact absurd h3 (by decide)

/-- C4 (amended): for every valid `AgentConfig` with provider `retell`,
the mapped payload has `name = config.name`; a nested `llm` object with
`provider` equal to the fixed default `"openai"` and `model` equal to
`config.llm_model` when that is a non-empty string and the default
`"gpt-3.5-turbo"` when it is absent or empty; `system_prompt` equal to
`config.system_prompt` or the empty string; `metadata` equal to
`config.metadata` or the empty mapping; and when a voice block is present,
a nested `voice` object with the Retell-remapped `provider`, the
`voice_id`, and `settings` when settings are given and non-empty. -/
theorem C4_retell_field_mapping (config : AgentConfig)
    (hp : config.provider = AgentProvider.retell) :
    dget (create_retell_payload_pre config) "name" = some (Json.str config.name) ∧
    (∃ lo, dget (create_retell_payload_pre config) "llm" = some (Json.obj lo) ∧
      dget lo "provider" = some (Json.str "openai") ∧
      (config.llm_model = none →
        dget lo "model" = some (Json.str "gpt-3.5-turbo")) ∧
      (∀ s, config.llm_model = some s → s ≠ "" →
        dget lo "model" = some (Json.str s)) ∧
      (config.llm_model = some "" →
        dget lo "model" = some (Json.str "gpt-3.5-turbo"))) ∧
    (config.system_prompt = none →
      dget (create_retell_payload_pre config) "system_prompt" = some (Json.str "")) ∧
    (∀ s, config.system_prompt = some s →
      dget (create_retell_payload_pre config) "system_prompt" = some (Json.str s)) ∧
    (config.metadata = none →
      dget (create_retell_payload_pre config) "metadata" = some (Json.obj [])) ∧
    (∀ m, config.metadata = some m →
      dget (create_retell_payload_pre config) "metadata" = some (Json.obj m)) ∧
    (∀ v, config.voice = some v →
      ∃ vo, dget (create_retell_payload_pre config) "voice" = some (Json.obj vo) ∧
        dget vo "provider" =
          some (Json.str (map_voice_provider_to_retell v.provider)) ∧
        dget vo "voice_id" = some (Json.str v.voice_id) ∧
        ∀ s, v.settings = some s → s ≠ [] →
          dget vo "settings" = some (Json.obj s)) := by
  have hname : dget (create_retell_payload_pre config) "name" =
      dget (retell_base_payload config) "name" :=
    dget_retell_pre_base config "name" (by decide) (by decide) (by decide)
  have hllm : dget (create_retell_payload_pre config) "llm" =
      dget (retell_base_payload config) "llm" :=
    dget_retell_pre_base config "llm" (by decide) (by decide) (by decide)
  have hsys : dget (create_retell_payload_pre config) "system_prompt" =
      dget (retell_base_payload config) "system_prompt" :=
    dget_retell_pre_base config "system_prompt" (by decide) (by decide) (by decide)
  have hmeta : dget (create_retell_payload_pre config) "metadata" =
      dget (retell_base_payload config) "metadata" :=
    dget_retell_pre_base config "metadata" (by decide) (by decide) (by decide)
  refine ⟨?_, ?_, ?_, ?_, ?_, ?_, ?_⟩
  · rw [hname]; rfl
  · refine ⟨[("provider", Json.str "openai"),
      ("model", Json.str (pyOrStr config.llm_model "gpt-3.5-turbo"))],
      ?_, rfl, ?_, ?_, ?_⟩
    · rw [hllm]; rfl
    · intro hl
      show some (Json.str (pyOrStr config.llm_model "gpt-3.5-turbo")) = _
      rw [hl]
      rfl
    · intro s hl hs
      show some (Json.str (pyOrStr config.llm_model "gpt-3.5-turbo")) = _
      rw [hl]
      simp [pyOrStr, hs]
    · intro hl
      show some (Json.str (pyOrStr config.llm_model "gpt-3.5-turbo")) = _
      rw [hl]
      rfl
  · intro hl
    rw [hsys]
    show some (Json.str (pyOrStr config.system_prompt "")) = _
    rw [hl]
    rfl
  · intro s hl
    rw [hsys]
    show some (Json.str (pyOrStr config.system_prompt "")) = _
    rw [hl]
    by_cases hs : s = ""
    · simp [pyOrStr, hs]
    · simp [pyOrStr, hs]
  · intro hm
    rw [hmeta]
    show some (Json.obj (pyOrDict config.metadata)) = _
    rw [hm]
    rfl
  · intro m hm
    rw [hmeta]
    show some (Json.obj (pyOrDict config.metadata)) = _
    rw [hm]
    rfl
  · intro v hv
    refine ⟨retell_voice_obj v, ?_, retell_voice_obj_provider v,
      retell_voice_obj_voice_id v,
      fun s hs hne => retell_voice_obj_settings v s hs hne⟩
    unfold create_retell_payload_pre
    rw [dget_add_description_ne _ _ _ (by decide),
      dget_add_webhook_ne _ _ _ (by decide), hv]
    exact dget_add_voice_retell_voice v _

/-- Witness for the amended C4 at the test suite's configuration. -/
theorem C4_witness :
    sample_retell_config.provider = AgentProvider.retell ∧
    dget (create_retell_payload_pre sample_retell_config) "name" =
      some (Json.str "Test Agent") ∧
    ∃ lo, dget (create_retell_payload_pre sample_retell_config) "llm" =
        some (Json.obj lo) ∧
      dget lo "provider" = some (Json.str "openai") :=
  ⟨rfl, (C4_retell_field_mapping sample_retell_config rfl).1,
    ((C4_retell_field_mapping sample_retell_config rfl).2.1).elim
      (fun lo h => ⟨lo, h.1, h.2.1⟩)⟩

/-! ### Claims about the request pipeline -/

/-- C7: when either credential is absent from the environment, every
request is rejected with status 500 and a detail saying the key is not
configured, before any outbound call (`Dispatch.reject`, never
`Dispatch.call`), regardless of the request body or target provider. -/
theorem C7_missing_credentials (vk rk : Option String) (body : List (String × Json))
    (h : vk = none ∨ rk = none) :
    handle_request vk rk body =
        Dispatch.reject 500 "VAPI_API_KEY not configured in environment" ∨
      handle_request vk rk body =
        Dispatch.reject 500 "RETELL_API_KEY not configured in environment" := by
  rcases h with h | h
  · subst h
    left
    rfl
  · subst h
    cases he : envTruthy vk
    · left
      simp [handle_request, validate_api_keys, he]
    · right
      have henone : envTruthy (none : Option String) = false := rfl
      simp [handle_request, validate_api_keys, he, henone]

/-- Witness for C7: missing Vapi key, request targeting vapi. -/
theorem C7_witness :
    ((none : Option String) = none ∨ (some "rk" : Option String) = none) ∧
    (handle_request none (some "rk")
        [("name", Json.str "Test Agent"), ("provider", Json.str "vapi")] =
        Dispatch.reject 500 "VAPI_API_KEY not configured in environment" ∨
      handle_request none (some "rk")
        [("name", Json.str "Test Agent"), ("provider", Json.str "vapi")] =
        Dispatch.reject 500 "RETELL_API_KEY not configured in environment") :=
  ⟨Or.inl rfl,
    C7_missing_credentials none (some "rk")
      [("name", Json.str "Test Agent"), ("provider", Json.str "vapi")] (Or.inl rfl)⟩

theorem parseAgentConfig_error_of_invalid (body : List (String × Json))
    (h : dget body "name" = none ∨ dget body "provider" = none ∨
      (∃ j, dget body "provider" = some j ∧ parseAgentProvider j = none) ∨
      (∃ fs pj, dget body "voice" = some (Json.obj fs) ∧
        dget fs "provider" = some pj ∧ parseVoiceProvider pj = none)) :
    parseAgentConfig body = Except.error () := by
  rcases h with h | h | ⟨j, hj, hpj⟩ | ⟨fs, pj, hv, hfs, hpj⟩
  · have hn : parseName body = Except.error () := by
      simp [parseName, h]
    simp [parseAgentConfig, hn]
  · have hp : parseProvider body = Except.error () := by
      simp [parseProvider, h]
    cases hn : parseName body with
    | error e => cases e; simp [parseAgentConfig, hn]
    | ok nm => simp [parseAgentConfig, hn, hp]
  · have hp : parseProvider body = Except.error () := by
      simp [parseProvider, hj, hpj]
    cases hn : parseName body with
    | error e => cases e; simp [parseAgentConfig, hn]
    | ok nm => simp [parseAgentConfig, hn, hp]
  · have hvf : parseVoiceField body = Except.error () := by
      have hpv : parseVoice (Json.obj fs) = Except.error () := by
        simp [parseVoice, hfs, hpj]
      simp [parseVoiceField, hv, hpv]
    cases hn : parseName body with
    | error e => cases e; simp [parseAgentConfig, hn]
    | ok nm =>
      cases hpr : parseProvider body with
      | error e => cases e; simp [parseAgentConfig, hn, hpr]
      | ok pv =>
        cases hd : parseOptStr body "description" with
        | error e => cases e; simp [parseAgentConfig, hn, hpr, hd]
        | ok dv =>
          cases hlm : parseOptStr body "llm_model" with
          | error e => cases e; simp [parseAgentConfig, hn, hpr, hd, hlm]
          | ok lv =>
            cases hsp : parseOptStr body "system_prompt" with
            | error e => cases e; simp [parseAgentConfig, hn, hpr, hd, hlm, hsp]
            | ok sv => simp [parseAgentConfig, hn, hpr, hd, hlm, hsp, hvf]

/-- C8 counterexample: a body missing both `name` and `provider`, sent
while the credentials are absent from the environment, is answered with
the 500 configuration error — not a 422 validation failure — because the
credential dependency is resolved before body validation. -/
theorem C8_counterexample :
    dget ([] : List (String × Json)) "name" = none ∧
    dget ([] : List (String × Json)) "provider" = none ∧
    handle_request none none [] =
      Dispatch.reject 500 "VAPI_API_KEY not configured in environment" ∧
    dispatchStatus (handle_request none none []) ≠ some 422 := by
  refine ⟨rfl, rfl, rfl, fun h => ?_⟩
  have h1 : dispatchStatus (handle_request none none []) = some 500 := rfl
  rw [h1] at h
  injection h with h2
  exact absurd h2 (by decide)

/-- C8 (amended): provided both credentials are configured, every request
body in which `name` or `provider` is missing, or `provider` or
`voice.provider` is outside its enumerated set, is rejected with a 422
validation failure and no outbound HTTP call is made. -/
theorem C8_validation_422 (vk rk : String) (hv : vk ≠ "") (hr : rk ≠ "")
    (body : List (String × Json))
    (h : dget body "name" = none ∨ dget body "provider" = none ∨
      (∃ j, dget body "provider" = some j ∧ parseAgentProvider j = none) ∨
      (∃ fs pj, dget body "voice" = some (Json.obj fs) ∧
        dget fs "provider" = some pj ∧ parseVoiceProvider pj = none)) :
    handle_request (some vk) (some rk) body =
      Dispatch.reject 422 "validation error" := by
  have hkeys : validate_api_keys (some vk) (some rk) = Except.ok (vk, rk) := by
    simp [validate_api_keys, envTruthy, hv, hr]
  have hparse := parseAgentConfig_error_of_invalid body h
  simp [handle_request, hkeys, hparse]

/-- Witness for the amended C8: configured keys, body missing `name`. -/
theorem C8_witness :
    (("k" : String) ≠ "" ∧ ("r" : String) ≠ "" ∧
      dget [("provider", Json.str "vapi")] "name" = none) ∧
    handle_request (some "k") (some "r") [("provider", Json.str "vapi")] =
      Dispatch.reject 422 "validation error" :=
  ⟨⟨by decide, by decide, rfl⟩,
    C8_validation_422 "k" "r" (by decide) (by decide)
      [("provider", Json.str "vapi")] (Or.inl rfl)⟩

end AgentApi
